import Mathlib

/-!
Verification of the ossuary-pi control plane against its specification.

Shallow embedding of the two core subsystems:

* `CaptivePortal` — the captive-portal detection proxy
  (`src/scripts/captive-portal-proxy.py`): path classification,
  intercept response, request dispatch per method, and the error
  mapping of `proxy_request`.

* `ConfigServer` — the process-supervision engine
  (`src/scripts/config-server.py`): the `TEST_PROCESSES` registry and
  the handlers `handle_test_command` (spawn), `handle_test_output`
  (poll) and `handle_stop_test` (terminate).

Python string primitives used by the code (`str.split('?')[0]`,
`str.lower`, `str.strip`, `len`, slicing, substring test) are embedded
as executable functions on `String` / `List Char`.  Lowercasing is the
ASCII lowering of `Char.toLower`, which agrees with Python on the ASCII
paths involved here.  OS effects (process exit status observed by
`Popen.poll`, file contents, syscall failure of `os.killpg`) are inputs
to the embedded handlers, and resource effects (files created/deleted,
processes started, signals sent) are recorded in the handler outcomes.
-/

namespace Py

/-- Embedding of Python `s.lower()`: lowercase every character.
Lowercasing is the ASCII lowering of `Char.toLower`, which agrees with
Python on the ASCII strings this code deals in. -/
def lower (s : String) : String :=
  ⟨s.data.map Char.toLower⟩

/-- Predicate matching what Python `str.strip()` removes: the ASCII
whitespace characters (space, tab, newline, carriage return, vertical
tab, form feed). -/
def isSpace (c : Char) : Bool :=
  c = ' ' || c = '\t' || c = '\n' || c = '\x0d' || c = '\x0b' || c = '\x0c'

/-- Embedding of Python `s.strip()`: remove leading and trailing
whitespace characters. -/
def strip (s : String) : String :=
  ⟨((s.data.dropWhile isSpace).reverse.dropWhile isSpace).reverse⟩

/-- Embedding of Python `len(s)`: the number of characters. -/
def strLen (s : String) : Nat :=
  s.data.length

/-- Embedding of Python `s[:n]`: the first `n` characters. -/
def strTake (n : Nat) (s : String) : String :=
  ⟨s.data.take n⟩

/-- Occurrence of `needle` as a contiguous sublist: some suffix of the
haystack starts with it. -/
def occursIn (needle : List Char) : List Char → Bool
  | [] => needle.isEmpty
  | c :: rest => List.isPrefixOf needle (c :: rest) || occursIn needle rest

/-- Embedding of Python `needle in s` (substring containment). -/
def strContains (needle s : String) : Bool :=
  occursIn needle.data s.data

end Py

namespace CaptivePortal

/-- Embedding of `PORTAL_DETECTION_PATHS` from `captive-portal-proxy.py` (lines 43–66):
the fixed set of captive-portal probe paths, embedded as a list. -/
def PORTAL_DETECTION_PATHS : List String :=
  [ "/hotspot-detect.html"
  , "/library/test/success.html"
  , "/captive.apple.com"
  , "/generate_204"
  , "/gen_204"
  , "/connectivitycheck.gstatic.com"
  , "/connecttest.txt"
  , "/ncsi.txt"
  , "/redirect"
  , "/canonical.html"
  , "/success.txt"
  , "/check_network_status.txt"
  , "/nm-check-status"
  ]

/-- Python `path.split('?')[0]`: everything before the first `?`
(the whole string when there is no `?`). -/
def stripQuery (path : String) : String :=
  ⟨path.data.takeWhile (fun c => c != '?')⟩

/-- The normalization performed by `is_portal_detection_request`:
`path.split('?')[0].lower()`. -/
def cleanPath (path : String) : String :=
  Py.lower (stripQuery path)

/-- Embedding of `is_portal_detection_request` (lines 79–83): membership of the
normalized path in the detection set. -/
def is_portal_detection_request (path : String) : Bool :=
  PORTAL_DETECTION_PATHS.contains (cleanPath path)

/-- The verdict of the classifier for a request path. -/
inductive Classification where
  | Intercept
  | Passthrough
  deriving DecidableEq, Repr

/-- Definition `classify`: the Portal Classifier as a pure function of the raw
request path (the contract of spec section 4.1 over
`is_portal_detection_request`). -/
def classify (path : String) : Classification :=
  if is_portal_detection_request path then .Intercept else .Passthrough

/-- An HTTP response as written to the client: status line, headers in
the order sent, body bytes (embedded as a string). -/
structure Response where
  status : Nat
  headers : List (String × String)
  body : String
  deriving DecidableEq, Repr

/-- The response built by `handle_portal_detection` (lines 100–107):
`send_response(302)`, `Location: /`, the cache-control header,
`Content-Length: 0`, and no body written. -/
def portalRedirectResponse : Response :=
  { status := 302
  , headers :=
      [ ("Location", "/")
      , ("Cache-Control", "no-cache, no-store, must-revalidate")
      , ("Content-Length", "0") ]
  , body := "" }

/-- What a request handler does: answer directly, or delegate to
`proxy_request` with a method, path and optional body. -/
inductive EdgeAction where
  | respond (r : Response)
  | proxy (method : String) (path : String) (body : Option (List Nat))
  deriving DecidableEq, Repr

/-- Embedding of `do_GET` (lines 177–185): intercept when the path is a detection
request, otherwise proxy with no body. -/
def do_GET (path : String) : EdgeAction :=
  if is_portal_detection_request path then .respond portalRedirectResponse
  else .proxy "GET" path none

/-- Embedding of `do_HEAD` (lines 196–203): same dispatch as `do_GET`. -/
def do_HEAD (path : String) : EdgeAction :=
  if is_portal_detection_request path then .respond portalRedirectResponse
  else .proxy "HEAD" path none

/-- Embedding of `do_POST` (lines 187–194): read `Content-Length` bytes of body when
the header value is positive, else pass `None`; always proxy.
`contentLength` is the parsed `Content-Length` header (0 when absent)
and `stream` the request stream of the client. -/
def do_POST (path : String) (contentLength : Nat) (stream : List Nat) :
    EdgeAction :=
  .proxy "POST" path
    (if contentLength > 0 then some (stream.take contentLength) else none)

/-- Embedding of `do_OPTIONS` (lines 205–207): always proxy, no body. -/
def do_OPTIONS (path : String) : EdgeAction :=
  .proxy "OPTIONS" path none

/-- A response obtained from the backend (`urlopen` success). -/
structure BackendResponse where
  code : Nat
  headers : List (String × String)
  body : String
  deriving DecidableEq, Repr

/-- An `urllib.error.HTTPError` raised by `urlopen`: backend answered
with an error status.  `fp` is the optional error body. -/
structure HttpErr where
  code : Nat
  headers : List (String × String)
  fp : Option String
  deriving DecidableEq, Repr

/-- The event that ends the `try` body of `proxy_request`: a backend
response fully relayed, or the exception that aborted the body. -/
inductive ProxyEvent where
  | success (resp : BackendResponse)
  | httpError (e : HttpErr)
  | urlError
  | socketTimeout
  | brokenPipe
  | otherError
  deriving DecidableEq, Repr

/-- Header filtering of `proxy_request`: keep headers whose lowercased
name is not in `banned`, preserving order (lines 142–144, 153–155). -/
def filterHeaders (banned : List String) (hs : List (String × String)) :
    List (String × String) :=
  hs.filter (fun h => !(banned.contains (Py.lower h.1)))

/-- Response-leg filter on the success path (line 143). -/
def responseDropList : List String :=
  ["connection", "transfer-encoding", "content-encoding"]

/-- Response-leg filter on the `HTTPError` path (line 154). -/
def httpErrorDropList : List String :=
  ["connection", "transfer-encoding"]

/-- Embedding of `BaseHTTPRequestHandler.send_error`: an error response carrying the
given status (its generated HTML body is irrelevant to the claims and
embedded as the message string). -/
def send_error (code : Nat) (message : String) : Response :=
  { status := code, headers := [], body := message }

/-- The response forwarded on the success path (lines 139–148). -/
def forwardSuccess (r : BackendResponse) : Response :=
  { status := r.code
  , headers := filterHeaders responseDropList r.headers
  , body := r.body }

/-- The response forwarded on the `HTTPError` path (lines 152–158):
the error body is written only when `e.fp` is present. -/
def forwardHttpError (e : HttpErr) : Response :=
  { status := e.code
  , headers := filterHeaders httpErrorDropList e.headers
  , body := e.fp.getD "" }

/-- Embedding of `proxy_request` (lines 114–175) as a map from the terminating event
to the response written to the client (`none` when the handler swallows
the event and writes nothing). -/
def proxy_request : ProxyEvent → Option Response
  | .success r => some (forwardSuccess r)
  | .httpError e => some (forwardHttpError e)
  | .urlError => some (send_error 502 "WiFi Connect service unavailable")
  | .socketTimeout => some (send_error 504 "Gateway timeout")
  | .brokenPipe => none
  | .otherError => some (send_error 502 "Proxy error")

/-- Timeout passed to `urlopen` for the backend round trip
(line 136: `urlopen(req, timeout=30)`), in seconds. -/
def backendTimeoutSeconds : Nat := 30

end CaptivePortal

namespace ConfigServer

/-- One entry of the `TEST_PROCESSES` dict (lines 537–543).  The
`process` and `output_handle` dict fields are the OS process object and
the open file object; they are represented here by the registry key
(the pid) and by `output_file`, the name of the backing file. -/
structure HandleInfo where
  output_file : String
  start_time : Nat
  command : String
  deriving DecidableEq, Repr

/-- Embedding of the global `TEST_PROCESSES` dict: an association list
from `str(pid)` to handle info.  Python dict keys are unique; theorems
needing uniqueness take a `Nodup` hypothesis on the keys. -/
abbrev Registry : Type := List (String × HandleInfo)

/-- Embedding of Python `del d[pid]` on a dict, as removal of every
entry with that key (equivalent on a dict, whose keys are unique). -/
def dictErase (pid : String) (reg : Registry) : Registry :=
  List.filter (fun e => e.1 != pid) reg

/-- Lookup in the registry, Python `d[pid]` / `pid in d`. -/
def dictFind (pid : String) (reg : Registry) : Option HandleInfo :=
  List.lookup pid reg

/-- Result of `handle_test_command` as sent to the client. -/
inductive SpawnResult where
  | rejected (status : Nat) (error : String)
  | started (pid : Nat) (message : String)
  deriving DecidableEq, Repr

/-- Full outcome of `handle_test_command`: the response, the registry
afterwards, the output files created, and the shell command actually
started (`none` when nothing was spawned). -/
structure SpawnOutcome where
  result : SpawnResult
  registry : Registry
  filesCreated : List String
  spawnedCommand : Option String
  deriving DecidableEq, Repr

/-- Embedding of the GUI detection (line 516): `chromium` or `firefox`
occurs in the lowercased command, or `DISPLAY=` occurs in the command. -/
def is_gui (command : String) : Bool :=
  Py.strContains "chromium" (Py.lower command)
    || Py.strContains "firefox" (Py.lower command)
    || Py.strContains "DISPLAY=" command

/-- Environment prefix prepended for GUI commands (line 521). -/
def guiEnvExports : String :=
  "export DISPLAY=:0; export XAUTHORITY=/home/pi/.Xauthority; "

/-- Embedding of `handle_test_command` (lines 477–548), the spawn
operation.  `rawCommand` is the `command` field of the posted JSON;
`freshPid` is the pid the OS gives the new process and `freshFile` the
name `tempfile.NamedTemporaryFile` allocates; `now` is `time.time()`.
The empty check is on the raw text (line 490), then the text is
stripped (line 495), the 4096 limit tested on the stripped text
(line 498), the capacity limit on the dict size (line 503); only then
are the output file created and the process started, and the handle
inserted under `str(process.pid)` (line 537) recording the first 100
characters of the stripped command (line 542). -/
def handle_test_command (rawCommand : String) (reg : Registry)
    (freshPid : Nat) (freshFile : String) (now : Nat) : SpawnOutcome :=
  if rawCommand = "" then
    { result := .rejected 400 "No command provided"
    , registry := reg, filesCreated := [], spawnedCommand := none }
  else
    let command := Py.strip rawCommand
    if Py.strLen command > 4096 then
      { result := .rejected 400 "Command too long (max 4096 chars)"
      , registry := reg, filesCreated := [], spawnedCommand := none }
    else if reg.length ≥ 5 then
      { result := .rejected 429 "Too many test processes running"
      , registry := reg, filesCreated := [], spawnedCommand := none }
    else
      let test_cmd := if is_gui command then guiEnvExports ++ command else command
      { result := .started freshPid "Test started"
      , registry := (toString freshPid,
          { output_file := freshFile, start_time := now
          , command := Py.strTake 100 command }) :: reg
      , filesCreated := [freshFile]
      , spawnedCommand := some test_cmd }

/-- Result of `handle_test_output` as sent to the client. -/
inductive PollResult where
  | notFound
  | ok (output : String) (running : Bool) (exit_code : Option Int)
  deriving DecidableEq, Repr

/-- Full outcome of `handle_test_output`: the response, the registry
afterwards, and the output files closed and deleted. -/
structure PollOutcome where
  result : PollResult
  registry : Registry
  filesDeleted : List String
  deriving DecidableEq, Repr

/-- Embedding of `handle_test_output` (lines 556–601), the poll
operation.  `osPoll` is the value of `process.poll()` (`none` while the
process runs, otherwise the exit code); `fileContents` is the current
content of the output file (`none` when the file does not exist).
When the process has exited the handler closes the sink, deletes the
backing file and removes the handle from the registry before replying. -/
def handle_test_output (reg : Registry) (pid_str : String)
    (osPoll : Option Int) (fileContents : Option String) : PollOutcome :=
  match dictFind pid_str reg with
  | none => { result := .notFound, registry := reg, filesDeleted := [] }
  | some info =>
    let output := fileContents.getD ""
    match osPoll with
    | none =>
      { result := .ok output true none, registry := reg, filesDeleted := [] }
    | some code =>
      { result := .ok output false (some code)
      , registry := dictErase pid_str reg
      , filesDeleted := [info.output_file] }

/-- Signals the stop handler can send (lines 616–627): group signals
via `os.killpg`, process signals via the `Popen` fallback. -/
inductive SignalEvent where
  | sigtermGroup
  | sigkillGroup
  | sigtermProcess
  | sigkillProcess
  deriving DecidableEq, Repr

/-- Result of `handle_stop_test` as sent to the client. -/
inductive StopResult where
  | notFound
  | success
  deriving DecidableEq, Repr

/-- Full outcome of `handle_stop_test`: the response, the registry
afterwards, the files deleted, the signals sent in order, and the
seconds slept between the graceful and the forceful signal. -/
structure StopOutcome where
  result : StopResult
  registry : Registry
  filesDeleted : List String
  signalsSent : List SignalEvent
  graceWaitSeconds : Nat
  deriving DecidableEq, Repr

/-- Embedding of `handle_stop_test` (lines 603–644), the terminate
operation.  `groupKillRaises` says whether the `os.killpg` block raised
(in which case the fallback signals just the process, lines 622–627);
`aliveAfterGrace` is whether `process.poll()` is still `None` after the
1-second sleep.  Both paths send SIGTERM, sleep 1 second, and escalate
to SIGKILL when the process is still alive; failures of the sink close
and the file unlink are swallowed (lines 630–638), the handle is
removed unconditionally and success is reported. -/
def handle_stop_test (reg : Registry) (pid_str : String)
    (groupKillRaises : Bool) (aliveAfterGrace : Bool) : StopOutcome :=
  match dictFind pid_str reg with
  | none =>
    { result := .notFound, registry := reg, filesDeleted := []
    , signalsSent := [], graceWaitSeconds := 0 }
  | some info =>
    let signals : List SignalEvent :=
      if groupKillRaises then
        .sigtermProcess :: (if aliveAfterGrace then [.sigkillProcess] else [])
      else
        .sigtermGroup :: (if aliveAfterGrace then [.sigkillGroup] else [])
    { result := .success
    , registry := dictErase pid_str reg
    , filesDeleted := [info.output_file]
    , signalsSent := signals
    , graceWaitSeconds := 1 }

end ConfigServer

section ProxyTheorems

open CaptivePortal

/-- C1: for every raw request path, `classify` returns `Intercept`
exactly when the query-stripped, lowercased form of the path is one of
the 13 fixed detection paths, and `Passthrough` for every other path
(near-misses and prefix or substring resemblances included); the
result depends only on the path string, `classify` being a pure
function of it. -/
theorem classify_intercept_iff (path : String) :
    PORTAL_DETECTION_PATHS.length = 13 ∧
    (classify path = .Intercept ↔
      Py.lower (stripQuery path) ∈ PORTAL_DETECTION_PATHS) ∧
    (classify path = .Passthrough ↔
      Py.lower (stripQuery path) ∉ PORTAL_DETECTION_PATHS) := by
  have h : is_portal_detection_request path = true ↔
      Py.lower (stripQuery path) ∈ PORTAL_DETECTION_PATHS := by
    simp [is_portal_detection_request, cleanPath]
  refine ⟨rfl, ?_, ?_⟩ <;> cases hb : is_portal_detection_request path <;>
    simp [classify, hb] <;> simp [hb] at h <;> exact h

/-- C2: a GET or HEAD request whose path classifies as `Intercept` is
answered with exactly status 302, headers `Location: /`,
`Cache-Control: no-cache, no-store, must-revalidate` and
`Content-Length: 0`, and an empty body — identically for GET and
HEAD. -/
theorem intercept_response_exact (path : String)
    (h : classify path = .Intercept) :
    do_GET path = .respond portalRedirectResponse ∧
    do_HEAD path = do_GET path ∧
    portalRedirectResponse.status = 302 ∧
    portalRedirectResponse.headers =
      [ ("Location", "/")
      , ("Cache-Control", "no-cache, no-store, must-revalidate")
      , ("Content-Length", "0") ] ∧
    portalRedirectResponse.body = "" := by
  have hb : is_portal_detection_request path = true := by
    cases hb : is_portal_detection_request path
    · rw [classify, hb] at h; simp at h
    · rfl
  refine ⟨?_, ?_, rfl, rfl, rfl⟩ <;> simp [do_GET, do_HEAD, hb]

/-- Witness for C2 at the concrete path `/GENERATE_204?seq=1`
(uppercase with a query string, normalizing to `/generate_204`). -/
theorem intercept_response_exact_witness :
    classify "/GENERATE_204?seq=1" = .Intercept ∧
    (do_GET "/GENERATE_204?seq=1" = .respond portalRedirectResponse ∧
     do_HEAD "/GENERATE_204?seq=1" = do_GET "/GENERATE_204?seq=1" ∧
     portalRedirectResponse.status = 302 ∧
     portalRedirectResponse.headers =
       [ ("Location", "/")
       , ("Cache-Control", "no-cache, no-store, must-revalidate")
       , ("Content-Length", "0") ] ∧
     portalRedirectResponse.body = "") :=
  ⟨by decide, intercept_response_exact "/GENERATE_204?seq=1" (by decide)⟩

/-- C3: `proxy_request` maps every terminating event of a forwarding
attempt: a network-level `URLError` (connection refused, DNS, network
error) to a 502 error response, a `socket.timeout` of the 30-second
backend round trip to 504, any other fault to 502, and a client
disconnect (`BrokenPipeError`) to no response at all — the only event
answered with silence. -/
theorem proxy_error_taxonomy :
    (∀ e : ProxyEvent, proxy_request e = none ↔ e = .brokenPipe) ∧
    proxy_request .urlError =
      some (send_error 502 "WiFi Connect service unavailable") ∧
    proxy_request .socketTimeout = some (send_error 504 "Gateway timeout") ∧
    proxy_request .otherError = some (send_error 502 "Proxy error") ∧
    (send_error 502 "WiFi Connect service unavailable").status = 502 ∧
    (send_error 504 "Gateway timeout").status = 504 ∧
    (send_error 502 "Proxy error").status = 502 ∧
    backendTimeoutSeconds = 30 := by
  refine ⟨?_, rfl, rfl, rfl, rfl, rfl, rfl, rfl⟩
  intro e
  cases e <;> simp [proxy_request]

/-- C8 counterexample: a backend error response carrying a
Content-Encoding header is forwarded with that header kept.  On the
HTTPError path only Connection and Transfer-Encoding are dropped,
refuting the claim that Content-Encoding is dropped on every response
forwarded to the client, backend error statuses included. -/
theorem httpError_keeps_content_encoding :
    proxy_request (.httpError
      { code := 500
      , headers := [("Content-Encoding", "gzip"), ("Connection", "close")]
      , fp := some "boom" }) =
    some { status := 500
         , headers := [("Content-Encoding", "gzip")]
         , body := "boom" } := by
  decide

/-- C8 amended: on success responses the forwarder drops Connection,
Transfer-Encoding and Content-Encoding and copies the remaining
headers unchanged and in order before the body; on backend error
responses — forwarded with their status and body — it drops only
Connection and Transfer-Encoding, so Content-Encoding is copied
through. -/
theorem response_header_filtering (r : BackendResponse) (e : HttpErr) :
    proxy_request (.success r) = some
      { status := r.code
      , headers := r.headers.filter (fun h =>
          !(["connection", "transfer-encoding", "content-encoding"].contains
              (Py.lower h.1)))
      , body := r.body } ∧
    proxy_request (.httpError e) = some
      { status := e.code
      , headers := e.headers.filter (fun h =>
          !(["connection", "transfer-encoding"].contains (Py.lower h.1)))
      , body := e.fp.getD "" } :=
  ⟨rfl, rfl⟩

/-- C9: POST and OPTIONS requests are never intercepted — both always
delegate to the forwarder, even when the path is in the detection set;
a POST forwards the first Content-Length bytes of the stream, fully
read before forwarding, and an absent body (Content-Length 0 or
missing) is forwarded as no body rather than an empty one. -/
theorem post_options_always_passthrough (path : String) (cl : Nat)
    (stream : List Nat) (r : Response) :
    do_POST path cl stream ≠ .respond r ∧
    do_OPTIONS path ≠ .respond r ∧
    do_POST path cl stream =
      .proxy "POST" path (if cl > 0 then some (stream.take cl) else none) ∧
    do_POST path 0 stream = .proxy "POST" path none ∧
    do_OPTIONS path = .proxy "OPTIONS" path none := by
  refine ⟨?_, ?_, rfl, rfl, rfl⟩ <;> simp [do_POST, do_OPTIONS]

end ProxyTheorems

namespace ConfigServer

/-- Erasing a key removes every entry under it: a subsequent lookup of
that key fails. -/
theorem dictFind_dictErase (pid : String) (reg : Registry) :
    dictFind pid (dictErase pid reg) = none := by
  induction reg with
  | nil => rfl
  | cons e t ih =>
    obtain ⟨k, v⟩ := e
    by_cases h : k = pid
    · have hk : (k != pid) = false := by simp [h]
      simp only [dictErase, List.filter_cons, hk]
      simpa [dictErase] using ih
    · have hk : (k != pid) = true := bne_iff_ne.mpr h
      have hbk : (pid == k) = false := beq_eq_false_iff_ne.mpr (Ne.symm h)
      simp only [dictErase, List.filter_cons, hk]
      simp only [dictFind, List.lookup, hbk]
      simpa [dictFind, dictErase] using ih

/-- Erasing a key that is not in the registry changes nothing. -/
theorem dictErase_not_key (pid : String) (reg : Registry)
    (h : pid ∉ reg.map Prod.fst) : dictErase pid reg = reg := by
  induction reg with
  | nil => rfl
  | cons e t ih =>
    obtain ⟨k, v⟩ := e
    simp only [List.map_cons, List.mem_cons] at h
    push_neg at h
    have hk : (k != pid) = true := bne_iff_ne.mpr (Ne.symm h.1)
    simp only [dictErase, List.filter_cons, hk]
    simp only [if_true]
    have := ih h.2
    simp only [dictErase] at this
    rw [this]

/-- On a registry whose keys are unique, erasing a present key shrinks
the registry by exactly one entry. -/
theorem dictErase_length (pid : String) (reg : Registry)
    (hnodup : (reg.map Prod.fst).Nodup)
    (hmem : dictFind pid reg ≠ none) :
    (dictErase pid reg).length + 1 = reg.length := by
  induction reg with
  | nil => simp [dictFind] at hmem
  | cons e t ih =>
    obtain ⟨k, v⟩ := e
    simp only [List.map_cons, List.nodup_cons] at hnodup
    by_cases h : k = pid
    · subst h
      have hk : (k != k) = false := by simp
      have hnk : k ∉ t.map Prod.fst := by
        intro hc
        exact hnodup.1 (by simpa using hc)
      simp only [dictErase, List.filter_cons, hk]
      have := dictErase_not_key k t hnk
      simp only [dictErase] at this
      simp [this]
    · have hk : (k != pid) = true := bne_iff_ne.mpr h
      have hbk : (pid == k) = false := beq_eq_false_iff_ne.mpr (Ne.symm h)
      have hm : dictFind pid t ≠ none := by
        simp only [dictFind, List.lookup, hbk] at hmem
        exact hmem
      have := ih hnodup.2 hm
      simp only [dictErase, List.filter_cons, hk] at this ⊢
      simp only [if_true, List.length_cons, List.length]
      omega

end ConfigServer

section SupervisorTheorems

open ConfigServer

/-- C4: polling a registered handle whose process has exited returns
running false together with the exit code of the process, deletes the
backing output file, and removes the handle from the registry in the
same operation; on the resulting registry every further poll or
terminate on that id answers not-found and mutates nothing, so no
handle is ever left behind in a terminated state. -/
theorem poll_reaps_exited_handle (reg : Registry) (pid : String)
    (info : HandleInfo) (code : Int) (contents : Option String)
    (hfind : dictFind pid reg = some info) :
    (handle_test_output reg pid (some code) contents).result =
      .ok (contents.getD "") false (some code) ∧
    (handle_test_output reg pid (some code) contents).filesDeleted =
      [info.output_file] ∧
    dictFind pid (handle_test_output reg pid (some code) contents).registry =
      none ∧
    (∀ osPoll c2,
      handle_test_output
        (handle_test_output reg pid (some code) contents).registry pid
        osPoll c2 =
      { result := .notFound
      , registry := (handle_test_output reg pid (some code) contents).registry
      , filesDeleted := [] }) ∧
    (∀ gk alive,
      handle_stop_test
        (handle_test_output reg pid (some code) contents).registry pid
        gk alive =
      { result := .notFound
      , registry := (handle_test_output reg pid (some code) contents).registry
      , filesDeleted := [], signalsSent := [], graceWaitSeconds := 0 }) := by
  have hreg : (handle_test_output reg pid (some code) contents).registry =
      dictErase pid reg := by
    simp [handle_test_output, hfind]
  have hnone : dictFind pid (dictErase pid reg) = none :=
    dictFind_dictErase pid reg
  refine ⟨?_, ?_, ?_, ?_, ?_⟩
  · simp [handle_test_output, hfind]
  · simp [handle_test_output, hfind]
  · rw [hreg]; exact hnone
  · intro osPoll c2
    rw [hreg]
    simp [handle_test_output, hnone]
  · intro gk alive
    rw [hreg]
    simp [handle_stop_test, hnone]

/-- Witness for C4: a one-handle registry under id 42 whose process
exited with code 0; the reap and the permanence of not-found at the
concrete follow-up calls. -/
theorem poll_reaps_exited_handle_witness :
    dictFind "42" [("42", ⟨"/tmp/out.log", 5, "sleep 1"⟩)] =
      some ⟨"/tmp/out.log", 5, "sleep 1"⟩ ∧
    (handle_test_output [("42", ⟨"/tmp/out.log", 5, "sleep 1"⟩)] "42"
        (some 0) (some "done")).result = .ok "done" false (some 0) ∧
    (handle_test_output [("42", ⟨"/tmp/out.log", 5, "sleep 1"⟩)] "42"
        (some 0) (some "done")).filesDeleted = ["/tmp/out.log"] ∧
    dictFind "42"
      (handle_test_output [("42", ⟨"/tmp/out.log", 5, "sleep 1"⟩)] "42"
        (some 0) (some "done")).registry = none ∧
    handle_test_output
      (handle_test_output [("42", ⟨"/tmp/out.log", 5, "sleep 1"⟩)] "42"
        (some 0) (some "done")).registry "42" (some 3) none =
      { result := .notFound
      , registry :=
          (handle_test_output [("42", ⟨"/tmp/out.log", 5, "sleep 1"⟩)] "42"
            (some 0) (some "done")).registry
      , filesDeleted := [] } ∧
    handle_stop_test
      (handle_test_output [("42", ⟨"/tmp/out.log", 5, "sleep 1"⟩)] "42"
        (some 0) (some "done")).registry "42" false true =
      { result := .notFound
      , registry :=
          (handle_test_output [("42", ⟨"/tmp/out.log", 5, "sleep 1"⟩)] "42"
            (some 0) (some "done")).registry
      , filesDeleted := [], signalsSent := [], graceWaitSeconds := 0 } := by
  have T := poll_reaps_exited_handle
    [("42", ⟨"/tmp/out.log", 5, "sleep 1"⟩)] "42"
    ⟨"/tmp/out.log", 5, "sleep 1"⟩ 0 (some "done") rfl
  exact ⟨rfl, T.1, T.2.1, T.2.2.1, T.2.2.2.1 (some 3) none,
    T.2.2.2.2 false true⟩

end SupervisorTheorems

namespace Py

/-- Dropping a failing predicate from a constant list removes nothing. -/
theorem dropWhile_replicate_not (p : Char → Bool) (a : Char) (h : p a = false)
    (n : Nat) : (List.replicate n a).dropWhile p = List.replicate n a := by
  cases n with
  | zero => rfl
  | succ m => simp [List.replicate_succ, List.dropWhile_cons, h]

/-- Stripping a string of non-whitespace letters changes nothing. -/
theorem strip_replicate_self (n : Nat) :
    strip ⟨List.replicate n 'a'⟩ = ⟨List.replicate n 'a'⟩ := by
  have ha : isSpace 'a' = false := rfl
  simp [strip, dropWhile_replicate_not _ _ ha, List.reverse_replicate]

/-- Stripping removes a single trailing space after a run of letters. -/
theorem strip_replicate_append_space (n : Nat) :
    strip ⟨List.replicate n 'a' ++ [' ']⟩ = ⟨List.replicate n 'a'⟩ := by
  have ha : isSpace 'a' = false := rfl
  have hsp : isSpace ' ' = true := rfl
  cases n with
  | zero => rfl
  | succ m =>
    have hkeep : (List.replicate m 'a' ++ ['a']).dropWhile isSpace =
        List.replicate m 'a' ++ ['a'] := by
      cases m with
      | zero => simp [List.dropWhile_cons, ha]
      | succ k =>
        simp [List.replicate_succ, List.cons_append, List.dropWhile_cons, ha]
    simp only [strip, List.replicate_succ, List.cons_append,
      List.dropWhile_cons, ha, Bool.false_eq_true, if_false,
      List.reverse_cons, List.reverse_append, List.reverse_replicate,
      List.nil_append, hsp, if_true]
    simp only [List.reverse_nil, List.nil_append, List.append_assoc,
      List.singleton_append]
    simp [List.dropWhile_cons, hsp, hkeep, List.reverse_append,
      List.reverse_replicate, List.replicate_succ]

/-- Character count of a string built from an explicit list. -/
theorem strLen_mk (l : List Char) : strLen ⟨l⟩ = l.length := rfl

end Py

namespace ConfigServer

/-- Branch lemma for `handle_test_command`: a nonempty command whose
stripped form respects the length limit, submitted while fewer than 5
handles are registered, starts a process and inserts a handle. -/
theorem handle_test_command_accepts (c : String) (reg : Registry)
    (pid : Nat) (f : String) (now : Nat)
    (hne : c ≠ "") (hlen : ¬ Py.strLen (Py.strip c) > 4096)
    (hcap : ¬ reg.length ≥ 5) :
    handle_test_command c reg pid f now =
      { result := .started pid "Test started"
      , registry := (toString pid,
          { output_file := f, start_time := now
          , command := Py.strTake 100 (Py.strip c) }) :: reg
      , filesCreated := [f]
      , spawnedCommand := some (if is_gui (Py.strip c) then
          guiEnvExports ++ Py.strip c else Py.strip c) } := by
  simp only [handle_test_command]
  rw [if_neg hne, if_neg hlen, if_neg hcap]

/-- Branch lemma for `handle_test_command`: command over the stripped
length limit, rejected 400 with nothing allocated. -/
theorem handle_test_command_too_long (c : String) (reg : Registry)
    (pid : Nat) (f : String) (now : Nat)
    (hne : c ≠ "") (hlen : Py.strLen (Py.strip c) > 4096) :
    handle_test_command c reg pid f now =
      { result := .rejected 400 "Command too long (max 4096 chars)"
      , registry := reg, filesCreated := [], spawnedCommand := none } := by
  simp only [handle_test_command]
  rw [if_neg hne, if_pos hlen]

end ConfigServer

section SupervisorTheorems2

open ConfigServer

/-- Command submitted in the C5 counterexample: 4096 letters followed
by one space — 4097 characters of raw input. -/
def rawLongCommand : String := ⟨List.replicate 4096 'a' ++ [' ']⟩

/-- C5 counterexample: the submitted command `rawLongCommand` is 4097
characters long — longer than 4096 — yet spawn does not reject it:
stripping removes the trailing space, the limit is tested on the
4096-character stripped text, and a process is started with a handle
inserted, refuting rejection measured on the submitted text. -/
theorem spawn_accepts_oversized_raw_command :
    Py.strLen rawLongCommand = 4097 ∧
    (handle_test_command rawLongCommand [] 777 "/tmp/test.log" 0).result =
      .started 777 "Test started" ∧
    (handle_test_command rawLongCommand [] 777 "/tmp/test.log" 0).registry.length
      = 1 := by
  have hne : rawLongCommand ≠ "" := by
    intro h
    have h2 : rawLongCommand.data.length = ("" : String).data.length := by
      rw [h]
    rw [show rawLongCommand.data = List.replicate 4096 'a' ++ [' '] from rfl,
      show ("" : String).data = [] from rfl, List.length_append,
      List.length_replicate] at h2
    simp at h2
  have hstrip : Py.strip rawLongCommand = ⟨List.replicate 4096 'a'⟩ :=
    Py.strip_replicate_append_space 4096
  have hlen : ¬ Py.strLen (Py.strip rawLongCommand) > 4096 := by
    rw [hstrip, Py.strLen_mk, List.length_replicate]
    omega
  have hcap : ¬ ([] : Registry).length ≥ 5 := by decide
  have H := handle_test_command_accepts rawLongCommand [] 777 "/tmp/test.log" 0
    hne hlen hcap
  refine ⟨?_, ?_, ?_⟩
  · rw [show Py.strLen rawLongCommand = rawLongCommand.data.length from rfl,
      show rawLongCommand.data = List.replicate 4096 'a' ++ [' '] from rfl,
      List.length_append, List.length_replicate]
    rfl
  · rw [H]
  · rw [H]
    rfl

/-- C5 amended: spawn rejects an empty submitted command, and rejects a
command whose whitespace-stripped form is longer than 4096 characters,
in each case with a 400 response before any resource is allocated — no
process started, no output file created, registry unchanged. -/
theorem spawn_rejects_empty_and_too_long (c : String) (reg : Registry)
    (pid : Nat) (f : String) (now : Nat) :
    (c = "" →
      handle_test_command c reg pid f now =
        { result := .rejected 400 "No command provided"
        , registry := reg, filesCreated := [], spawnedCommand := none }) ∧
    (c ≠ "" → Py.strLen (Py.strip c) > 4096 →
      handle_test_command c reg pid f now =
        { result := .rejected 400 "Command too long (max 4096 chars)"
        , registry := reg, filesCreated := [], spawnedCommand := none }) := by
  constructor
  · intro h
    subst h
    rfl
  · intro h1 h2
    exact handle_test_command_too_long c reg pid f now h1 h2

/-- Command of 4097 letters, over the limit even after stripping. -/
def overlongCommand : String := ⟨List.replicate 4097 'a'⟩

/-- Witness for C5 amended: the empty command and a 4097-letter command
are both rejected 400 on an empty registry, allocating nothing. -/
theorem spawn_rejects_empty_and_too_long_witness :
    handle_test_command "" [] 1 "/tmp/w.log" 0 =
      { result := .rejected 400 "No command provided"
      , registry := [], filesCreated := [], spawnedCommand := none } ∧
    handle_test_command overlongCommand [] 1 "/tmp/w.log" 0 =
      { result := .rejected 400 "Command too long (max 4096 chars)"
      , registry := [], filesCreated := [], spawnedCommand := none } := by
  have hne : overlongCommand ≠ "" := by
    intro h
    have h2 : overlongCommand.data.length = ("" : String).data.length := by
      rw [h]
    rw [show overlongCommand.data = List.replicate 4097 'a' from rfl,
      show ("" : String).data = [] from rfl, List.length_replicate,
      List.length_nil] at h2
    omega
  have hlen : Py.strLen (Py.strip overlongCommand) > 4096 := by
    rw [show Py.strip overlongCommand = Py.strip ⟨List.replicate 4097 'a'⟩
        from rfl,
      Py.strip_replicate_self, Py.strLen_mk, List.length_replicate]
    omega
  exact ⟨(spawn_rejects_empty_and_too_long "" [] 1 "/tmp/w.log" 0).1 rfl,
    (spawn_rejects_empty_and_too_long overlongCommand [] 1 "/tmp/w.log" 0).2
      hne hlen⟩

end SupervisorTheorems2

section SupervisorTheorems3

open ConfigServer

/-- C6: with the registry holding 5 handles, a further spawn of a valid
command is rejected 429 with nothing allocated and the registry
unchanged; after a poll reaps one exited handle (registry keys being
unique), the registry holds 4 entries and the same spawn starts a
process and inserts a new handle, found under its pid. -/
theorem spawn_capacity_limit (reg : Registry) (c : String) (pid : Nat)
    (f : String) (now : Nat)
    (hfull : reg.length = 5) (hne : c ≠ "")
    (hlen : Py.strLen (Py.strip c) ≤ 4096) :
    handle_test_command c reg pid f now =
      { result := .rejected 429 "Too many test processes running"
      , registry := reg, filesCreated := [], spawnedCommand := none } ∧
    (∀ (pidR : String) (info : HandleInfo) (code : Int) (out : Option String),
      (reg.map Prod.fst).Nodup → dictFind pidR reg = some info →
      (handle_test_output reg pidR (some code) out).registry.length = 4 ∧
      (handle_test_command c
        (handle_test_output reg pidR (some code) out).registry pid f
        now).result = .started pid "Test started" ∧
      dictFind (toString pid)
        (handle_test_command c
          (handle_test_output reg pidR (some code) out).registry pid f
          now).registry =
        some { output_file := f, start_time := now
             , command := Py.strTake 100 (Py.strip c) }) := by
  have hlen2 : ¬ Py.strLen (Py.strip c) > 4096 := Nat.not_lt.mpr hlen
  constructor
  · simp only [handle_test_command]
    rw [if_neg hne, if_neg hlen2, if_pos (by omega : reg.length ≥ 5)]
  · intro pidR info code out hnodup hfind
    have hreg : (handle_test_output reg pidR (some code) out).registry =
        dictErase pidR reg := by
      simp [handle_test_output, hfind]
    have hlen4 : (dictErase pidR reg).length + 1 = 5 := by
      rw [dictErase_length pidR reg hnodup (by rw [hfind]; simp), hfull]
    have hcap : ¬ (dictErase pidR reg).length ≥ 5 := by omega
    have H := handle_test_command_accepts c (dictErase pidR reg) pid f now
      hne hlen2 hcap
    refine ⟨?_, ?_, ?_⟩
    · rw [hreg]
      omega
    · rw [hreg, H]
    · rw [hreg, H]
      simp [dictFind, List.lookup]

/-- Registry of five running handles used by the C6 witness. -/
def regFive : Registry :=
  [ ("11", ⟨"/tmp/11.log", 0, "c1"⟩)
  , ("12", ⟨"/tmp/12.log", 0, "c2"⟩)
  , ("13", ⟨"/tmp/13.log", 0, "c3"⟩)
  , ("14", ⟨"/tmp/14.log", 0, "c4"⟩)
  , ("15", ⟨"/tmp/15.log", 0, "c5"⟩) ]

/-- Witness for C6: five registered handles, a sixth spawn rejected,
one handle reaped by poll, and the sixth spawn then succeeding. -/
theorem spawn_capacity_limit_witness :
    handle_test_command "echo hi" regFive 6 "/tmp/6.log" 9 =
      { result := .rejected 429 "Too many test processes running"
      , registry := regFive, filesCreated := [], spawnedCommand := none } ∧
    (handle_test_output regFive "13" (some 0) none).registry.length = 4 ∧
    (handle_test_command "echo hi"
      (handle_test_output regFive "13" (some 0) none).registry 6 "/tmp/6.log"
      9).result = .started 6 "Test started" ∧
    dictFind "6" (handle_test_command "echo hi"
      (handle_test_output regFive "13" (some 0) none).registry 6 "/tmp/6.log"
      9).registry =
      some { output_file := "/tmp/6.log", start_time := 9
           , command := "echo hi" } := by
  have T := spawn_capacity_limit regFive "echo hi" 6 "/tmp/6.log" 9 rfl
    (by decide) (by decide)
  have T2 := T.2 "13" ⟨"/tmp/13.log", 0, "c3"⟩ 0 none (by decide) (by decide)
  exact ⟨T.1, T2.1, T2.2.1, T2.2.2⟩

/-- C7: terminating a registered handle sends the graceful signal,
waits the 1-second grace interval, and escalates to the forceful
signal exactly when the process is still alive afterwards — on the
normal path both signals address the process group; whether or not the
group-kill block raised, the sink file is deleted, the handle is
removed from the registry, and success is reported. -/
theorem terminate_escalates_and_cleans (reg : Registry) (pid : String)
    (info : HandleInfo) (gk alive : Bool)
    (hfind : dictFind pid reg = some info) :
    (handle_stop_test reg pid gk alive).result = .success ∧
    (handle_stop_test reg pid gk alive).registry = dictErase pid reg ∧
    dictFind pid (handle_stop_test reg pid gk alive).registry = none ∧
    (handle_stop_test reg pid gk alive).filesDeleted = [info.output_file] ∧
    (handle_stop_test reg pid gk alive).graceWaitSeconds = 1 ∧
    (gk = false →
      (handle_stop_test reg pid gk alive).signalsSent =
        .sigtermGroup :: (if alive then [.sigkillGroup] else [])) ∧
    (handle_stop_test reg pid gk alive).signalsSent.length =
      (if alive then 2 else 1) := by
  have H : handle_stop_test reg pid gk alive =
      { result := .success
      , registry := dictErase pid reg
      , filesDeleted := [info.output_file]
      , signalsSent :=
          if gk then
            .sigtermProcess :: (if alive then [.sigkillProcess] else [])
          else
            .sigtermGroup :: (if alive then [.sigkillGroup] else [])
      , graceWaitSeconds := 1 } := by
    simp [handle_stop_test, hfind]
  refine ⟨by rw [H], by rw [H], ?_, by rw [H], by rw [H], ?_, ?_⟩
  · rw [H]
    exact dictFind_dictErase pid reg
  · intro hgk
    rw [H, hgk]
    simp
  · rw [H]
    cases gk <;> cases alive <;> simp

/-- Witness for C7: one registered handle under id 9, normal group-kill
path, process still alive after the grace wait. -/
theorem terminate_escalates_and_cleans_witness :
    dictFind "9" [("9", ⟨"/tmp/9.log", 2, "sleep 99"⟩)] =
      some ⟨"/tmp/9.log", 2, "sleep 99"⟩ ∧
    (handle_stop_test [("9", ⟨"/tmp/9.log", 2, "sleep 99"⟩)] "9" false
      true).result = .success ∧
    dictFind "9" (handle_stop_test [("9", ⟨"/tmp/9.log", 2, "sleep 99"⟩)] "9"
      false true).registry = none ∧
    (handle_stop_test [("9", ⟨"/tmp/9.log", 2, "sleep 99"⟩)] "9" false
      true).filesDeleted = ["/tmp/9.log"] ∧
    (handle_stop_test [("9", ⟨"/tmp/9.log", 2, "sleep 99"⟩)] "9" false
      true).graceWaitSeconds = 1 ∧
    (handle_stop_test [("9", ⟨"/tmp/9.log", 2, "sleep 99"⟩)] "9" false
      true).signalsSent = [.sigtermGroup, .sigkillGroup] := by
  have T := terminate_escalates_and_cleans
    [("9", ⟨"/tmp/9.log", 2, "sleep 99"⟩)] "9"
    ⟨"/tmp/9.log", 2, "sleep 99"⟩ false true rfl
  refine ⟨rfl, T.1, T.2.2.1, T.2.2.2.1, T.2.2.2.2.1, ?_⟩
  have h := T.2.2.2.2.2.1 rfl
  simpa using h

/-- C10: the empty-command rejection tests the raw submitted text, so a
whitespace-only command is not rejected as empty: it is stripped to the
empty string, the 4096 limit is tested on the stripped (empty) text,
the stripped text is what is spawned and what the handle records, and
a registry handle running an empty shell command is created. -/
theorem whitespace_only_command_spawns (c : String) (reg : Registry)
    (pid : Nat) (f : String) (now : Nat)
    (hne : c ≠ "") (hws : Py.strip c = "") (hcap : reg.length < 5) :
    handle_test_command c reg pid f now =
      { result := .started pid "Test started"
      , registry := (toString pid,
          { output_file := f, start_time := now, command := "" }) :: reg
      , filesCreated := [f]
      , spawnedCommand := some "" } ∧
    dictFind (toString pid) (handle_test_command c reg pid f now).registry =
      some { output_file := f, start_time := now, command := "" } := by
  have hlen : ¬ Py.strLen (Py.strip c) > 4096 := by
    rw [hws]
    decide
  have hcap2 : ¬ reg.length ≥ 5 := by omega
  have H := handle_test_command_accepts c reg pid f now hne hlen hcap2
  rw [hws] at H
  simp only [show Py.strTake 100 "" = "" from rfl,
    show is_gui "" = false from rfl, Bool.false_eq_true, if_false] at H
  refine ⟨H, ?_⟩
  rw [H]
  simp [dictFind, List.lookup]

/-- Witness for C10: a single-space command on an empty registry is
stripped to the empty string and spawned, inserting a handle that
records the empty command. -/
theorem whitespace_only_command_spawns_witness :
    (" " : String) ≠ "" ∧ Py.strip " " = "" ∧ ([] : Registry).length < 5 ∧
    handle_test_command " " [] 88 "/tmp/ws.log" 4 =
      { result := .started 88 "Test started"
      , registry := [("88",
          { output_file := "/tmp/ws.log", start_time := 4, command := "" })]
      , filesCreated := ["/tmp/ws.log"]
      , spawnedCommand := some "" } ∧
    dictFind "88" (handle_test_command " " [] 88 "/tmp/ws.log" 4).registry =
      some { output_file := "/tmp/ws.log", start_time := 4, command := "" } := by
  have T := whitespace_only_command_spawns " " [] 88 "/tmp/ws.log" 4
    (by decide) (by decide) (by decide)
  exact ⟨by decide, by decide, by decide, T.1, T.2⟩

end SupervisorTheorems3
